import Mathlib

/-!
Verification of the build-orchestration pipeline of `mintscript.py`.

The program stages input source files into a temporary sandbox directory,
writes a generated LaTeX document, runs the `xelatex` compiler twice,
checks for the produced PDF, and delivers it to a destination (an explicit
path, stdout via the sentinel `-`, or a default path derived from the
first input file).  The collaborators `parseargs`, `latexoptions` and
`buildlatex` are external (per the spec they are opaque), so the model
takes their observable outputs (the input file list, the output option)
as parameters of an abstract environment.

File contents are byte lists; the caller's filesystem is a partial map
from absolute paths to contents.  The external compiler is abstracted by
the exit status of each invocation and by whether the expected PDF exists
afterwards, exactly the two observations the source makes of it.
-/

set_option autoImplicit false

namespace Mintscript

/-- A file's contents as a sequence of bytes. -/
abbrev Bytes := List Nat

/-- Python exceptions that the modelled code can raise uncaught. -/
inductive PyError where
  /-- Python `UnicodeDecodeError`: text-mode read of bytes that are not valid in the
  text encoding (modelled as UTF-8). -/
  | unicodeDecodeError
  /-- Python `TypeError`: e.g. writing a `str` to a binary buffer. -/
  | typeError
  /-- Python `OSError` raised by `shutil.rmtree` when sandbox deletion fails. -/
  | rmtreeError
  /-- Python `AssertionError` from a failed `assert` statement. -/
  | assertionError
  deriving DecidableEq, Repr

/-- How the process run ends. -/
inductive Outcome where
  /-- Via `sys.exit(code)`: the process terminates with this exit code. -/
  | exit (code : Int)
  /-- Function `main` returns normally; the process exit code is 0. -/
  | normal
  /-- An uncaught exception: the process crashes (traceback, exit code 1). -/
  | error (e : PyError)
  deriving DecidableEq, Repr

/-- Where and what the run delivered as its output artifact. -/
inductive Delivery where
  /-- Bytes written to the process's standard output stream. -/
  | stdout (bytes : Bytes)
  /-- A file written at an absolute path with the given contents. -/
  | file (path : String) (bytes : Bytes)
  deriving DecidableEq, Repr

namespace ospath

/-- Embeds `os.path.join` (posixpath) for two components: if the second is
absolute (starts with `/`) it wins; otherwise the components are joined
with `/` unless the first is empty or already ends with `/`. -/
def join (a b : String) : String :=
  if b.data.head? = some '/' then b
  else if a = "" ∨ a.data.getLast? = some '/' then a ++ b
  else a ++ "/" ++ b

/-- Index of the last occurrence of `c` in `l`, or `-1` when absent
(mirrors Python's `str.rfind`). -/
def rfind (c : Char) (l : List Char) : Int :=
  (l.enum).foldl (fun acc p => if p.2 = c then (p.1 : Int) else acc) (-1)

/-- Embeds `os.path.splitext` on the character list: split at the last `.` that
lies after the last `/`, unless every character between them is a `.`
(so dotfiles like `.bashrc` have no extension). -/
def splitextData (p : List Char) : List Char × List Char :=
  let sepIndex := rfind '/' p
  let dotIndex := rfind '.' p
  if sepIndex < dotIndex ∧
      (p.enum).any (fun q => decide (sepIndex < (q.1 : Int)) &&
        decide ((q.1 : Int) < dotIndex) && decide (q.2 ≠ '.')) then
    (p.take dotIndex.toNat, p.drop dotIndex.toNat)
  else
    (p, [])

/-- Embeds `os.path.splitext`: root and extension of a path. -/
def splitext (s : String) : String × String :=
  let r := splitextData s.data
  (String.mk r.1, String.mk r.2)

end ospath

/-- Is one byte a UTF-8 continuation byte (`10xxxxxx`)? -/
def isCont (b : Nat) : Bool := 0x80 ≤ b && b ≤ 0xBF

/-- Decode a byte sequence as UTF-8 (RFC 3629: no overlong forms, no
surrogates, nothing above U+10FFFF), as Python's text-mode `read()` does
with the default UTF-8 codec; `none` models `UnicodeDecodeError`. -/
def utf8Decode : List Nat → Option (List Char)
  | [] => some []
  | b :: rest =>
    if b ≤ 0x7F then
      match utf8Decode rest with
      | some cs => some (Char.ofNat b :: cs)
      | none => none
    else if b ≤ 0xC1 then none
    else if b ≤ 0xDF then
      match rest with
      | b2 :: rest2 =>
        if isCont b2 then
          match utf8Decode rest2 with
          | some cs => some (Char.ofNat ((b - 0xC0) * 64 + (b2 - 0x80)) :: cs)
          | none => none
        else none
      | [] => none
    else if b ≤ 0xEF then
      match rest with
      | b2 :: b3 :: rest3 =>
        let lo2 := if b = 0xE0 then 0xA0 else 0x80
        let hi2 := if b = 0xED then 0x9F else 0xBF
        if lo2 ≤ b2 && b2 ≤ hi2 && isCont b3 then
          match utf8Decode rest3 with
          | some cs =>
            some (Char.ofNat ((b - 0xE0) * 4096 + (b2 - 0x80) * 64 + (b3 - 0x80)) :: cs)
          | none => none
        else none
      | _ => none
    else if b ≤ 0xF4 then
      match rest with
      | b2 :: b3 :: b4 :: rest4 =>
        let lo2 := if b = 0xF0 then 0x90 else 0x80
        let hi2 := if b = 0xF4 then 0x8F else 0xBF
        if lo2 ≤ b2 && b2 ≤ hi2 && isCont b3 && isCont b4 then
          match utf8Decode rest4 with
          | some cs =>
            some (Char.ofNat ((b - 0xF0) * 262144 + (b2 - 0x80) * 4096 +
              (b3 - 0x80) * 64 + (b4 - 0x80)) :: cs)
          | none => none
        else none
      | _ => none
    else none

/-- Python truthiness of the `args.output` option: `None` and the empty
string are falsy. -/
def pyFalsy : Option String → Bool
  | none => true
  | some s => s = ""

/-- The fixed document filename (`texfile = 'mintscript.tex'`). -/
def texfile : String := "mintscript.tex"

/-- The expected artifact filename (`pdffile = texfile[:-3] + 'pdf'`):
the character slice dropping the last three characters, then `pdf`. -/
def pdffile : String :=
  String.mk (texfile.data.take (texfile.length - 3)) ++ "pdf"

/-- The staged name of the input at position `i`
(`"source%d%s" % (i, os.path.splitext(f)[-1])`). -/
def sourceName (i : Nat) (ext : String) : String :=
  "source" ++ toString i ++ ext

/-- The staged names for the files of a list, the first one numbered `n`
(mirrors the `enumerate`-based list comprehension on line 55). -/
def stagedNamesFrom (n : Nat) : List String → List String
  | [] => []
  | f :: rest => sourceName n (ospath.splitext f).2 :: stagedNamesFrom (n + 1) rest

/-- Line 55: `files = ["source%d%s"%(i, os.path.splitext(f)[-1]) for i,f in enumerate(args.file)]`. -/
def stagedNames (l : List String) : List String := stagedNamesFrom 0 l

/-- The abstract environment of one run: everything outside the core that
the source observes.  The external compiler is abstracted by the exit
status of its `i`-th invocation and by the contents of the expected PDF
in the sandbox after the passes (if it exists); `rmtreeOk` says whether
`shutil.rmtree` succeeds at teardown. -/
structure Env where
  /-- The caller's working directory before the run (`cwd = os.getcwd()`). -/
  cwd0 : String
  /-- The unique path of the sandbox (`tempfile.mkdtemp()`). -/
  sandboxDir : String
  /-- From `args.file`: the ordered input file paths. -/
  file : List String
  /-- From `args.output`: the output destination option (`None` when absent). -/
  output : Option String
  /-- The caller's filesystem: absolute path to contents of the regular
  file there, `none` when no regular file exists at the path. -/
  fs : String → Option Bytes
  /-- Exit status of the i-th `subprocess.call(commandline)` (0-based). -/
  status : Nat → Int
  /-- Contents of `mintscript.pdf` in the sandbox after the compiler
  passes, `none` when the file is absent. -/
  pdf : Option Bytes
  /-- Whether `shutil.rmtree(dirpath)` succeeds during teardown. -/
  rmtreeOk : Bool

/-- What happened inside the `with tempdir()` block. -/
structure BodyResult where
  /-- How the block ended (normal fall-through, `sys.exit`, or exception). -/
  outcome : Outcome
  /-- Number of compiler invocations performed. -/
  calls : Nat
  /-- The staged copies made in the sandbox: `(name, bytes)` per copy. -/
  staged : List (String × Bytes)
  /-- Output delivered to its destination, if any. -/
  delivered : Option Delivery
  /-- Messages emitted through `logging.error` (always visible: the log
  level is at most ERROR on both sides of the `args.quiet` switch;
  `logging.debug` messages carry only opaque collaborator data and are
  not modelled). -/
  errorLog : List String
  deriving DecidableEq, Repr

/-- Observable result of a whole run. -/
structure RunResult where
  outcome : Outcome
  calls : Nat
  staged : List (String × Bytes)
  delivered : Option Delivery
  errorLog : List String
  /-- The process's working directory when the run ends. -/
  finalCwd : String
  /-- Whether the sandbox directory is absent when the run ends
  (`true` as well when it was never created). -/
  sandboxRemoved : Bool
  deriving DecidableEq, Repr

/-- The staging loop (lines 61-67): walk `zip(args.file, files)`; for
each pair resolve the old path against the captured original directory,
fail with that path if it is not a regular file (`sys.exit(1)` stops the
loop at the first failure), otherwise copy the bytes to the staged name.
Returns the copies actually made and the first failing resolved path. -/
def stageFiles (cwd : String) (fs : String → Option Bytes) :
    List (String × String) → List (String × Bytes) × Option String
  | [] => ([], none)
  | (old, new) :: rest =>
    let oldpath := ospath.join cwd old
    match fs oldpath with
    | none => ([], some oldpath)
    | some bytes =>
      let r := stageFiles cwd fs rest
      ((new, bytes) :: r.1, r.2)

/-- Output resolution and delivery (lines 81-87), after the artifact with
contents `bytes` was found: derive the default destination when
`args.output` is falsy, then dump to stdout for the sentinel `-` or copy
to the destination joined with the captured original directory. -/
def outputPhase (env : Env) (staged : List (String × Bytes)) (bytes : Bytes) :
    BodyResult :=
  -- if not args.output: args.output = os.path.splitext(args.file[0])[0] + '.pdf'
  let output :=
    if pyFalsy env.output then
      (ospath.splitext (env.file.headD "")).1 ++ ".pdf"
    else
      env.output.getD ""
  if output = "-" then
    -- sys.stdout.buffer.write(open(pdffile).read()):
    -- `open(pdffile)` reads in TEXT mode, decoding the bytes
    -- (UnicodeDecodeError if they are not valid), and `.read()` yields a
    -- str, which `buffer.write` rejects with TypeError; universal-newline
    -- translation never matters because the str never reaches the stream.
    match utf8Decode bytes with
    | none =>
      { outcome := .error .unicodeDecodeError, calls := 2,
        staged := staged, delivered := none, errorLog := [] }
    | some _ =>
      { outcome := .error .typeError, calls := 2, staged := staged,
        delivered := none, errorLog := [] }
  else if output ≠ "" then
    { outcome := .normal, calls := 2, staged := staged,
      delivered := some (.file (ospath.join env.cwd0 output) bytes),
      errorLog := [] }
  else
    { outcome := .normal, calls := 2, staged := staged,
      delivered := none, errorLog := [] }

/-- Lines 68-87 after staging succeeded with copies `staged`: assert no
collision with the fixed document name, write the document (its text
comes from the opaque `buildlatex` and is not observed), run the
compiler twice stopping at the first non-zero status, check the artifact
exists, then resolve and deliver the output. -/
def compilePhase (env : Env) (staged : List (String × Bytes)) : BodyResult :=
  if texfile ∈ stagedNames env.file then
    -- assert(texfile not in files) raises AssertionError
    { outcome := .error .assertionError, calls := 0, staged := staged,
      delivered := none, errorLog := [] }
  else if env.status 0 ≠ 0 then
    { outcome := .exit (env.status 0), calls := 1, staged := staged,
      delivered := none,
      errorLog := ["xelatex failed with return code " ++ toString (env.status 0)] }
  else if env.status 1 ≠ 0 then
    { outcome := .exit (env.status 1), calls := 2, staged := staged,
      delivered := none,
      errorLog := ["xelatex failed with return code " ++ toString (env.status 1)] }
  else
    match env.pdf with
    | none =>
      { outcome := .exit 1, calls := 2, staged := staged, delivered := none,
        errorLog := ["xelatex completed but " ++ pdffile ++ " not found in output"] }
    | some bytes => outputPhase env staged bytes

/-- The body of `main`'s `with tempdir()` block (lines 61-87): stage the
inputs (aborting with exit code 1 at the first missing file), then run
the compile-and-deliver phase. -/
def mainBody (env : Env) : BodyResult :=
  let sf := stageFiles env.cwd0 env.fs (env.file.zip (stagedNames env.file))
  match sf.2 with
  | some p =>
    { outcome := .exit 1, calls := 0, staged := sf.1, delivered := none,
      errorLog := ["Cannot read file " ++ p] }
  | none => compilePhase env sf.1

/-- The teardown path of `cd`/`tempdir` (lines 29-45): the `finally`
block first restores the previous working directory, then calls the
cleanup `shutil.rmtree(dirpath)`.  `rmtree` is not wrapped in any
handler: if it raises, the new exception propagates out of the `finally`
block and replaces whatever outcome (including `SystemExit`) was in
flight, and nothing is logged. -/
def teardown (env : Env) (b : BodyResult) : RunResult :=
  if env.rmtreeOk then
    { outcome := b.outcome, calls := b.calls, staged := b.staged,
      delivered := b.delivered, errorLog := b.errorLog,
      finalCwd := env.cwd0, sandboxRemoved := true }
  else
    { outcome := .error .rmtreeError, calls := b.calls, staged := b.staged,
      delivered := b.delivered, errorLog := b.errorLog,
      finalCwd := env.cwd0, sandboxRemoved := false }

/-- Embeds `main` (lines 47-87): reject an empty input list before any sandbox
is created, otherwise run the body inside the sandbox and perform the
guaranteed teardown on every path out of it. -/
def main (env : Env) : RunResult :=
  if env.file.length < 1 then
    { outcome := .exit 1, calls := 0, staged := [], delivered := none,
      errorLog := ["stdin entry is not yet supported"],
      finalCwd := env.cwd0, sandboxRemoved := true }
  else
    teardown env (mainBody env)

/-- Follows the spec's words (section 8, staging property): the staged
entries are `source<i><ext_i>` with exactly the bytes of the `i`-th
input file resolved against the caller's directory, first index `n`. -/
def stagedSpecFrom (cwd : String) (fs : String → Option Bytes) (n : Nat) :
    List String → List (String × Bytes)
  | [] => []
  | f :: rest =>
    (sourceName n (ospath.splitext f).2, (fs (ospath.join cwd f)).getD []) ::
      stagedSpecFrom cwd fs (n + 1) rest

/-- Follows the spec's words: the expected staging result for a run. -/
def stagedSpec (env : Env) : List (String × Bytes) :=
  stagedSpecFrom env.cwd0 env.fs 0 env.file

/-! ### Helper lemmas -/

lemma sourceName_ne_texfile (i : Nat) (ext : String) :
    sourceName i ext ≠ texfile := by
  intro h
  have h2 : (sourceName i ext).data = texfile.data := by rw [h]
  simp only [sourceName, texfile, String.data_append] at h2
  simp at h2

lemma texfile_not_mem_stagedNamesFrom (l : List String) (n : Nat) :
    texfile ∉ stagedNamesFrom n l := by
  induction l generalizing n with
  | nil => simp [stagedNamesFrom]
  | cons f rest ih =>
    simp only [stagedNamesFrom, List.mem_cons, not_or]
    exact ⟨fun h => sourceName_ne_texfile n _ h.symm, ih (n + 1)⟩

lemma texfile_not_mem_stagedNames (l : List String) :
    texfile ∉ stagedNames l :=
  texfile_not_mem_stagedNamesFrom l 0

lemma stageFiles_ok (cwd : String) (fs : String → Option Bytes)
    (l : List String) (n : Nat)
    (h : ∀ f ∈ l, (fs (ospath.join cwd f)).isSome) :
    stageFiles cwd fs (l.zip (stagedNamesFrom n l)) =
      (stagedSpecFrom cwd fs n l, none) := by
  induction l generalizing n with
  | nil => rfl
  | cons f rest ih =>
    obtain ⟨b, hb⟩ :=
      Option.isSome_iff_exists.mp (h f (List.mem_cons_self f rest))
    have ih2 := ih (n + 1) (fun g hg => h g (List.mem_cons_of_mem f hg))
    have hz : List.zipWith Prod.mk rest (stagedNamesFrom (n + 1) rest) =
        rest.zip (stagedNamesFrom (n + 1) rest) := rfl
    simp only [stagedNamesFrom, List.zip_cons_cons, stageFiles, hb,
      stagedSpecFrom]
    rw [hz, ih2]
    simp

lemma stageFiles_err (cwd : String) (fs : String → Option Bytes)
    (l : List String) (n : Nat)
    (h : ∃ f ∈ l, fs (ospath.join cwd f) = none) :
    ∃ f ∈ l, fs (ospath.join cwd f) = none ∧
      (stageFiles cwd fs (l.zip (stagedNamesFrom n l))).2 =
        some (ospath.join cwd f) := by
  induction l generalizing n with
  | nil => simp at h
  | cons f rest ih =>
    by_cases hf : fs (ospath.join cwd f) = none
    · exact ⟨f, List.mem_cons_self f rest, hf, by
        simp [stagedNamesFrom, stageFiles, hf]⟩
    · obtain ⟨b, hb⟩ := Option.ne_none_iff_exists'.mp hf
      have hrest : ∃ g ∈ rest, fs (ospath.join cwd g) = none := by
        obtain ⟨g, hg, hgn⟩ := h
        rcases List.mem_cons.mp hg with hgf | hgr
        · exact absurd (hgf ▸ hgn) hf
        · exact ⟨g, hgr, hgn⟩
      obtain ⟨g, hg, hgn, hstage⟩ := ih (n + 1) hrest
      refine ⟨g, List.mem_cons_of_mem f hg, hgn, ?_⟩
      simpa [stagedNamesFrom, stageFiles, hb] using hstage

lemma append_pdf_ne_dash (s : String) : s ++ ".pdf" ≠ "-" := by
  intro h
  have h2 := congrArg String.length h
  rw [String.length_append] at h2
  have h4 : String.length ".pdf" = 4 := rfl
  have h1 : String.length "-" = 1 := rfl
  omega

lemma append_pdf_ne_empty (s : String) : s ++ ".pdf" ≠ "" := by
  intro h
  have h2 := congrArg String.length h
  rw [String.length_append] at h2
  have h4 : String.length ".pdf" = 4 := rfl
  have h0 : String.length "" = 0 := rfl
  omega

lemma main_eq_teardown (env : Env) (h : env.file ≠ []) :
    main env = teardown env (mainBody env) := by
  have hp : 0 < env.file.length := List.length_pos.mpr h
  simp only [main, if_neg (by omega : ¬ env.file.length < 1)]

lemma mainBody_of_staged (env : Env)
    (h : ∀ f ∈ env.file, (env.fs (ospath.join env.cwd0 f)).isSome) :
    mainBody env = compilePhase env (stagedSpec env) := by
  simp only [mainBody, stagedNames,
    stageFiles_ok env.cwd0 env.fs env.file 0 h, stagedSpec]

lemma outputPhase_calls (env : Env) (s : List (String × Bytes)) (b : Bytes) :
    (outputPhase env s b).calls = 2 := by
  simp only [outputPhase]
  split <;> split <;> (try split) <;> rfl

lemma outputPhase_staged (env : Env) (s : List (String × Bytes)) (b : Bytes) :
    (outputPhase env s b).staged = s := by
  simp only [outputPhase]
  split <;> split <;> (try split) <;> rfl

lemma outputPhase_no_assert (env : Env) (s : List (String × Bytes)) (b : Bytes) :
    (outputPhase env s b).outcome ≠ .error .assertionError := by
  simp only [outputPhase]
  split <;> split <;> (try split) <;> simp

lemma compilePhase_staged (env : Env) (s : List (String × Bytes)) :
    (compilePhase env s).staged = s := by
  unfold compilePhase
  rw [if_neg (texfile_not_mem_stagedNames env.file)]
  split
  · rfl
  · split
    · rfl
    · split
      · rfl
      · exact outputPhase_staged env s _

lemma compilePhase_no_assert (env : Env) (s : List (String × Bytes)) :
    (compilePhase env s).outcome ≠ .error .assertionError := by
  unfold compilePhase
  rw [if_neg (texfile_not_mem_stagedNames env.file)]
  split
  · simp
  · split
    · simp
    · split
      · simp
      · exact outputPhase_no_assert env s _

lemma mainBody_no_assert (env : Env) :
    (mainBody env).outcome ≠ .error .assertionError := by
  simp only [mainBody]
  split
  · simp
  · exact compilePhase_no_assert env _

lemma compilePhase_ok (env : Env) (s : List (String × Bytes)) (b : Bytes)
    (h0 : env.status 0 = 0) (h1 : env.status 1 = 0)
    (hpdf : env.pdf = some b) :
    compilePhase env s = outputPhase env s b := by
  unfold compilePhase
  rw [if_neg (texfile_not_mem_stagedNames env.file)]
  simp [h0, h1, hpdf]

lemma compilePhase_fail0 (env : Env) (s : List (String × Bytes))
    (h0 : env.status 0 ≠ 0) :
    compilePhase env s =
      { outcome := .exit (env.status 0), calls := 1, staged := s,
        delivered := none,
        errorLog := ["xelatex failed with return code " ++ toString (env.status 0)] } := by
  unfold compilePhase
  rw [if_neg (texfile_not_mem_stagedNames env.file)]
  simp [h0]

lemma compilePhase_fail1 (env : Env) (s : List (String × Bytes))
    (h0 : env.status 0 = 0) (h1 : env.status 1 ≠ 0) :
    compilePhase env s =
      { outcome := .exit (env.status 1), calls := 2, staged := s,
        delivered := none,
        errorLog := ["xelatex failed with return code " ++ toString (env.status 1)] } := by
  unfold compilePhase
  rw [if_neg (texfile_not_mem_stagedNames env.file)]
  simp [h0, h1]

lemma compilePhase_calls_two (env : Env) (s : List (String × Bytes))
    (h0 : env.status 0 = 0) (h1 : env.status 1 = 0) :
    (compilePhase env s).calls = 2 := by
  unfold compilePhase
  rw [if_neg (texfile_not_mem_stagedNames env.file)]
  simp only [h0, h1, ne_eq, not_true_eq_false, if_false]
  cases hpdf : env.pdf with
  | none => rfl
  | some b => exact outputPhase_calls env s b

lemma teardown_staged (env : Env) (b : BodyResult) :
    (teardown env b).staged = b.staged := by
  unfold teardown
  split <;> rfl

lemma stagedSpecFrom_length (cwd : String) (fs : String → Option Bytes)
    (n : Nat) (l : List String) :
    (stagedSpecFrom cwd fs n l).length = l.length := by
  induction l generalizing n with
  | nil => rfl
  | cons f rest ih => simp [stagedSpecFrom, ih]

/-- Shared delivery lemma: when the output option is falsy and the run
reaches delivery, the artifact is copied to the derived default path,
resolved against the caller's original working directory. -/
lemma deliver_default (env : Env) (b : Bytes)
    (hne : env.file ≠ [])
    (hstage : ∀ f ∈ env.file, (env.fs (ospath.join env.cwd0 f)).isSome)
    (hrm : env.rmtreeOk = true)
    (h0 : env.status 0 = 0) (h1 : env.status 1 = 0)
    (hpdf : env.pdf = some b)
    (hfalsy : pyFalsy env.output = true) :
    (main env).delivered =
      some (.file
        (ospath.join env.cwd0
          ((ospath.splitext (env.file.headD "")).1 ++ ".pdf")) b) ∧
      (main env).outcome = .normal := by
  rw [main_eq_teardown env hne, mainBody_of_staged env hstage]
  simp only [teardown, hrm, if_true]
  rw [show compilePhase env (stagedSpec env) =
      outputPhase env (stagedSpec env) b from ?_]
  · simp only [outputPhase, hfalsy, if_true,
      if_neg (append_pdf_ne_dash (ospath.splitext (env.file.headD "")).1)]
    rw [if_pos (append_pdf_ne_empty (ospath.splitext (env.file.headD "")).1)]
    exact ⟨rfl, rfl⟩
  · unfold compilePhase
    rw [if_neg (texfile_not_mem_stagedNames env.file)]
    simp [h0, h1, hpdf]

/-! ### Claims -/

/-- A concrete caller environment for the witnesses: one input file
`foo/bar.py` of two bytes, a cooperative compiler whose two passes exit
with status 0 and produce a four-byte PDF (the header `%PDF`), no
explicit output destination, and a teardown whose deletion succeeds. -/
def envEx : Env :=
  { cwd0 := "/home/u", sandboxDir := "/tmp/sb0", file := ["foo/bar.py"],
    output := none,
    fs := fun p => if p = "/home/u/foo/bar.py" then some [104, 105] else none,
    status := fun _ => 0, pdf := some [37, 80, 68, 70], rmtreeOk := true }

/-- C2, counterexample: with a compiled run whose primary operation
succeeded (same environment with a working teardown ends normally), a
failing sandbox deletion makes the whole run crash with the propagated
`rmtree` error and nothing at all is logged — contradicting the claim
that the failure is logged and does not crash an otherwise-successful
run. -/
theorem claim_C2_counterexample :
    (main { envEx with rmtreeOk := false }).outcome = .error .rmtreeError ∧
      (main { envEx with rmtreeOk := false }).errorLog = [] ∧
      (main envEx).outcome = .normal := by
  decide

/-- C2, amended: if deletion of the sandbox directory fails during
teardown, the exception propagates out of the `finally` block: the run's
outcome becomes the teardown error — masking any earlier exit status and
crashing even a run whose primary operation succeeded — and no log entry
is added (the run's log is exactly the body's log). -/
theorem claim_C2_teardown_failure_propagates (env : Env)
    (hne : env.file ≠ []) (hrm : env.rmtreeOk = false) :
    (main env).outcome = .error .rmtreeError ∧
      (main env).errorLog = (mainBody env).errorLog := by
  rw [main_eq_teardown env hne]
  simp [teardown, hrm]

/-- C2, witness for the amended claim at a concrete environment. -/
theorem claim_C2_teardown_failure_propagates_witness :
    (main { envEx with rmtreeOk := false }).outcome = .error .rmtreeError ∧
      (main { envEx with rmtreeOk := false }).errorLog =
        (mainBody { envEx with rmtreeOk := false }).errorLog :=
  claim_C2_teardown_failure_propagates { envEx with rmtreeOk := false }
    (by decide) rfl

/-- C3: whenever the environment lets `rmtree` succeed, every run —
whatever control path leaves the sandbox scope (normal completion,
staging failure, compiler failure, artifact-missing failure) — ends with
the sandbox directory removed and the working directory restored to its
pre-run value. -/
theorem claim_C3_sandbox_lifecycle (env : Env) (hrm : env.rmtreeOk = true) :
    (main env).sandboxRemoved = true ∧ (main env).finalCwd = env.cwd0 := by
  by_cases h : env.file = []
  · simp [main, h]
  · rw [main_eq_teardown env h]
    simp [teardown, hrm]

/-- C3, witness at a concrete environment. -/
theorem claim_C3_sandbox_lifecycle_witness :
    envEx.rmtreeOk = true ∧
      ((main envEx).sandboxRemoved = true ∧ (main envEx).finalCwd = envEx.cwd0) :=
  ⟨rfl, claim_C3_sandbox_lifecycle envEx rfl⟩

/-- C4: once staging succeeds, the compiler is invoked exactly twice when
both passes exit 0; a non-zero status on the first pass stops after one
invocation, a non-zero status on the second stops after two, and in both
cases the run terminates with that status as the process exit code. -/
theorem claim_C4_two_pass_protocol (env : Env)
    (hne : env.file ≠ [])
    (hstage : ∀ f ∈ env.file, (env.fs (ospath.join env.cwd0 f)).isSome)
    (hrm : env.rmtreeOk = true) :
    ((env.status 0 = 0 ∧ env.status 1 = 0) → (main env).calls = 2) ∧
      (env.status 0 ≠ 0 →
        (main env).calls = 1 ∧ (main env).outcome = .exit (env.status 0)) ∧
      ((env.status 0 = 0 ∧ env.status 1 ≠ 0) →
        (main env).calls = 2 ∧ (main env).outcome = .exit (env.status 1)) := by
  rw [main_eq_teardown env hne, mainBody_of_staged env hstage]
  simp only [teardown, hrm, if_true]
  refine ⟨?_, ?_, ?_⟩
  · rintro ⟨h0, h1⟩
    exact compilePhase_calls_two env (stagedSpec env) h0 h1
  · intro h0
    rw [compilePhase_fail0 env (stagedSpec env) h0]
    exact ⟨rfl, rfl⟩
  · rintro ⟨h0, h1⟩
    rw [compilePhase_fail1 env (stagedSpec env) h0 h1]
    exact ⟨rfl, rfl⟩

/-- C4, witness at a concrete environment with both passes succeeding. -/
theorem claim_C4_two_pass_protocol_witness :
    (envEx.status 0 = 0 ∧ envEx.status 1 = 0) ∧ (main envEx).calls = 2 := by
  have h := claim_C4_two_pass_protocol envEx (by decide)
    (by
      intro f hf
      simp only [envEx, List.mem_singleton] at hf
      subst hf
      decide)
    rfl
  exact ⟨⟨rfl, rfl⟩, h.1 ⟨rfl, rfl⟩⟩

/-- C5: when both compiler passes exit 0 but the expected PDF artifact is
absent, the run fails with exit code 1 and delivers nothing. -/
theorem claim_C5_missing_artifact (env : Env)
    (hne : env.file ≠ [])
    (hstage : ∀ f ∈ env.file, (env.fs (ospath.join env.cwd0 f)).isSome)
    (hrm : env.rmtreeOk = true)
    (h0 : env.status 0 = 0) (h1 : env.status 1 = 0)
    (hpdf : env.pdf = none) :
    (main env).outcome = .exit 1 ∧ (main env).delivered = none := by
  rw [main_eq_teardown env hne, mainBody_of_staged env hstage]
  simp only [teardown, hrm, if_true]
  unfold compilePhase
  rw [if_neg (texfile_not_mem_stagedNames env.file)]
  simp [h0, h1, hpdf]

/-- C5, witness at a concrete environment whose compiler produced no PDF. -/
theorem claim_C5_missing_artifact_witness :
    (main { envEx with pdf := none }).outcome = .exit 1 ∧
      (main { envEx with pdf := none }).delivered = none :=
  claim_C5_missing_artifact { envEx with pdf := none } (by decide)
    (by
      intro f hf
      simp only [envEx, List.mem_singleton] at hf
      subst hf
      decide)
    rfl rfl rfl rfl

/-- C1 (refuted): the spec states that with output destination `-` the
artifact's raw bytes are written to stdout with no textual
transformation.  Line 85 instead opens the PDF in text mode (`open`
without `'rb'`) and passes the resulting `str` to the binary
`sys.stdout.buffer`, so every run that reaches stdout delivery delivers
nothing and crashes: with a `TypeError` when the bytes happen to decode
as text, and with a `UnicodeDecodeError` otherwise. -/
theorem claim_C1_stdout_dump_crashes (env : Env) (b : Bytes)
    (hne : env.file ≠ [])
    (hstage : ∀ f ∈ env.file, (env.fs (ospath.join env.cwd0 f)).isSome)
    (hrm : env.rmtreeOk = true)
    (h0 : env.status 0 = 0) (h1 : env.status 1 = 0)
    (hpdf : env.pdf = some b) (hout : env.output = some "-") :
    (main env).delivered = none ∧
      ((main env).outcome = .error .typeError ∨
        (main env).outcome = .error .unicodeDecodeError) := by
  rw [main_eq_teardown env hne, mainBody_of_staged env hstage]
  simp only [teardown, hrm, if_true]
  rw [compilePhase_ok env (stagedSpec env) b h0 h1 hpdf]
  cases hdec : utf8Decode b with
  | none => simp [outputPhase, hout, pyFalsy, hdec]
  | some cs => simp [outputPhase, hout, pyFalsy, hdec]

/-- C1, the failing input evaluated: a concrete run with destination `-`
whose artifact is the four bytes `%PDF` delivers nothing and dies with a
`TypeError`. -/
theorem claim_C1_stdout_dump_crashes_witness :
    (main { envEx with output := some "-" }).delivered = none ∧
      ((main { envEx with output := some "-" }).outcome = .error .typeError ∨
        (main { envEx with output := some "-" }).outcome =
          .error .unicodeDecodeError) :=
  claim_C1_stdout_dump_crashes { envEx with output := some "-" }
    [37, 80, 68, 70] (by decide)
    (by
      intro f hf
      simp only [envEx, List.mem_singleton] at hf
      subst hf
      decide)
    rfl rfl rfl rfl rfl

/-- The concrete environment whose single input file is missing from the
filesystem. -/
def envExMissing : Env := { envEx with fs := fun _ => none }

/-- C6: when some input path does not name an existing regular file, the
run exits with code 1, the compiler is never invoked, and an error
diagnostic naming the (resolved) offending path is logged. -/
theorem claim_C6_missing_input (env : Env)
    (hne : env.file ≠ [])
    (hrm : env.rmtreeOk = true)
    (hmiss : ∃ f ∈ env.file, env.fs (ospath.join env.cwd0 f) = none) :
    (main env).outcome = .exit 1 ∧ (main env).calls = 0 ∧
      ∃ f ∈ env.file, env.fs (ospath.join env.cwd0 f) = none ∧
        ("Cannot read file " ++ ospath.join env.cwd0 f) ∈
          (main env).errorLog := by
  obtain ⟨f, hf, hfn, hsf⟩ := stageFiles_err env.cwd0 env.fs env.file 0 hmiss
  have hbody : mainBody env =
      { outcome := .exit 1, calls := 0,
        staged :=
          (stageFiles env.cwd0 env.fs
            (env.file.zip (stagedNamesFrom 0 env.file))).1,
        delivered := none,
        errorLog := ["Cannot read file " ++ ospath.join env.cwd0 f] } := by
    simp only [mainBody, stagedNames]
    rw [hsf]
  rw [main_eq_teardown env hne, hbody]
  simp only [teardown, hrm, if_true]
  refine ⟨?_, ?_, f, hf, hfn, ?_⟩ <;> simp

/-- C6, witness: with the input file absent the run exits 1, never calls
the compiler, and logs the resolved offending path. -/
theorem claim_C6_missing_input_witness :
    (main envExMissing).outcome = .exit 1 ∧ (main envExMissing).calls = 0 ∧
      ∃ f ∈ envExMissing.file,
        envExMissing.fs (ospath.join envExMissing.cwd0 f) = none ∧
          ("Cannot read file " ++ ospath.join envExMissing.cwd0 f) ∈
            (main envExMissing).errorLog :=
  claim_C6_missing_input envExMissing (by decide) rfl
    ⟨"foo/bar.py", by decide, rfl⟩

/-- C7: whenever every input resolves to an existing regular file, the
staging step makes exactly one copy per input, the `i`-th named
`source<i><ext_i>` and byte-identical to the `i`-th input's contents. -/
theorem claim_C7_staging_exact (env : Env)
    (hstage : ∀ f ∈ env.file, (env.fs (ospath.join env.cwd0 f)).isSome) :
    (main env).staged.length = env.file.length ∧
      (main env).staged = stagedSpec env := by
  by_cases h : env.file = []
  · constructor
    · simp [main, h]
    · simp [main, h, stagedSpec, stagedSpecFrom]
  · have h2 : (main env).staged = stagedSpec env := by
      rw [main_eq_teardown env h, teardown_staged,
        mainBody_of_staged env hstage, compilePhase_staged]
    refine ⟨?_, h2⟩
    rw [h2]
    exact stagedSpecFrom_length env.cwd0 env.fs 0 env.file

/-- C7, witness at the concrete environment: one staged file named
`source0.py` holding the input's two bytes. -/
theorem claim_C7_staging_exact_witness :
    ((main envEx).staged.length = envEx.file.length ∧
        (main envEx).staged = stagedSpec envEx) ∧
      stagedSpec envEx = [("source0.py", [104, 105])] :=
  ⟨claim_C7_staging_exact envEx
    (by
      intro f hf
      simp only [envEx, List.mem_singleton] at hf
      subst hf
      decide), by decide⟩

/-- C8: with no explicit output destination configured, the artifact is
copied to the first input's path with its extension replaced by `.pdf`,
resolved against the caller's original working directory (never against
the sandbox), and the run completes normally. -/
theorem claim_C8_default_destination (env : Env) (b : Bytes)
    (hne : env.file ≠ [])
    (hstage : ∀ f ∈ env.file, (env.fs (ospath.join env.cwd0 f)).isSome)
    (hrm : env.rmtreeOk = true)
    (h0 : env.status 0 = 0) (h1 : env.status 1 = 0)
    (hpdf : env.pdf = some b) (hout : env.output = none) :
    (main env).delivered =
      some (.file
        (ospath.join env.cwd0
          ((ospath.splitext (env.file.headD "")).1 ++ ".pdf")) b) ∧
      (main env).outcome = .normal :=
  deliver_default env b hne hstage hrm h0 h1 hpdf (by rw [hout]; rfl)

/-- C8, witness: input `foo/bar.py` under caller directory `/home/u`
yields delivery to `/home/u/foo/bar.pdf` — the spec's `foo/bar.py` to
`foo/bar.pdf` example, resolved against the original directory. -/
theorem claim_C8_default_destination_witness :
    (main envEx).delivered =
        some (.file "/home/u/foo/bar.pdf" [37, 80, 68, 70]) ∧
      (main envEx).outcome = .normal := by
  have h := claim_C8_default_destination envEx [37, 80, 68, 70] (by decide)
    (by
      intro f hf
      simp only [envEx, List.mem_singleton] at hf
      subst hf
      decide)
    rfl rfl rfl rfl rfl
  exact ⟨h.1.trans (by decide), h.2⟩

/-- C9: the fixed document filename never equals any generated staged
name (every staged name starts with `source`), so the defensive
assertion before the document is written never fails on any run. -/
theorem claim_C9_texfile_never_collides (l : List String) (env : Env) :
    texfile ∉ stagedNames l ∧
      (main env).outcome ≠ .error .assertionError := by
  refine ⟨texfile_not_mem_stagedNames l, ?_⟩
  by_cases h : env.file = []
  · simp [main, h]
  · rw [main_eq_teardown env h]
    unfold teardown
    split
    · exact mainBody_no_assert env
    · simp

/-- The concrete environment with the output option explicitly set to the
empty string. -/
def envExEmptyOut : Env := { envEx with output := some "" }

/-- C10: a falsy configured output destination (the empty string, or the
absent value) is treated as absent: the artifact is delivered to the
default path derived from the first input file, the run completes
normally, and in particular it neither fails nor writes to an empty
path. -/
theorem claim_C10_falsy_output_defaults (env : Env) (b : Bytes)
    (hne : env.file ≠ [])
    (hstage : ∀ f ∈ env.file, (env.fs (ospath.join env.cwd0 f)).isSome)
    (hrm : env.rmtreeOk = true)
    (h0 : env.status 0 = 0) (h1 : env.status 1 = 0)
    (hpdf : env.pdf = some b) (hfalsy : pyFalsy env.output = true) :
    (main env).delivered =
      some (.file
        (ospath.join env.cwd0
          ((ospath.splitext (env.file.headD "")).1 ++ ".pdf")) b) ∧
      (main env).outcome = .normal :=
  deliver_default env b hne hstage hrm h0 h1 hpdf hfalsy

/-- C10, witness: with `output = ""` the artifact still lands at the
derived default path and the run succeeds. -/
theorem claim_C10_falsy_output_defaults_witness :
    (main envExEmptyOut).delivered =
        some (.file "/home/u/foo/bar.pdf" [37, 80, 68, 70]) ∧
      (main envExEmptyOut).outcome = .normal := by
  have h := claim_C10_falsy_output_defaults envExEmptyOut [37, 80, 68, 70]
    (by decide)
    (by
      intro f hf
      simp only [envExEmptyOut, envEx, List.mem_singleton] at hf
      subst hf
      decide)
    rfl rfl rfl rfl rfl
  exact ⟨h.1.trans (by decide), h.2⟩

end Mintscript
